import Mathlib

/-!
# naxsi nginx module: shallow embedding and verified properties

Embedding of `naxsi_nginx_module/ngx_http_naxsi_module.c`: the allocator
adapter, the rewrite-phase hook and its registration, the directive handlers
and the directive table.  Host (nginx) functions and the detection engine are
external collaborators: their behaviour enters as parameters.
-/

namespace Naxsi

/-! ## Host status codes -/

/-- Host status `NGX_OK`. -/
def NGX_OK : Int := 0

/-- Host status `NGX_ERROR`. -/
def NGX_ERROR : Int := -1

/-- Host status `NGX_DECLINED`: a phase handler that returns it lets the
pipeline go on to the next handler. -/
def NGX_DECLINED : Int := -5

/-- Directive handler success value `NGX_CONF_OK`, the null pointer. -/
def NGX_CONF_OK : Int := 0

/-- Directive handler failure sentinel `NGX_CONF_ERROR`, `(void *) -1`. -/
def NGX_CONF_ERROR : Int := -1

/-- Log level `NGX_LOG_EMERG`. -/
def NGX_LOG_EMERG : Nat := 1

/-! ## Allocator adapter -/

/-- A pool handle (`ngx_pool_t *`). -/
abbrev ngx_pool_t := Nat

/-- A data pointer (`void *`); `none` is the null pointer. -/
abbrev Ptr := Option Nat

/-- The host pool interface used by the adapter, over a host memory state `μ`.
Sizes are `size_t` values. -/
structure HostPool (μ : Type) where
  ngx_palloc : ngx_pool_t → Nat → μ → Ptr × μ
  ngx_pcalloc : ngx_pool_t → Nat → μ → Ptr × μ
  ngx_pfree : ngx_pool_t → Ptr → μ → Int × μ

/-- Adapter `nginx_naxsi_free`: the status of `ngx_pfree` is dropped. -/
def nginx_naxsi_free {μ : Type} (H : HostPool μ) (pool : ngx_pool_t) (ptr : Ptr) (m : μ) : μ :=
  (H.ngx_pfree pool ptr m).2

/-- Adapter `nginx_naxsi_malloc`. -/
def nginx_naxsi_malloc {μ : Type} (H : HostPool μ) (pool : ngx_pool_t) (size : Nat) (m : μ) :
    Ptr × μ :=
  H.ngx_palloc pool size m

/-- Adapter `nginx_naxsi_calloc`: `size_t total = nmemb * size;` is an unsigned
multiplication on `w`-bit words, so the product is taken modulo `2 ^ w`. -/
def nginx_naxsi_calloc {μ : Type} (w : Nat) (H : HostPool μ) (pool : ngx_pool_t)
    (nmemb size : Nat) (m : μ) : Ptr × μ :=
  let total := (nmemb * size) % 2 ^ w
  H.ngx_pcalloc pool total m

/-- A concrete host memory state: the bytes already handed out of one pool of
fixed capacity and the sizes of the zeroed requests seen so far. -/
structure BumpState where
  used : Nat
  capacity : Nat
  zeroed_requests : List Nat
  deriving DecidableEq, Repr

/-- Bump allocation: succeeds exactly when the request still fits. -/
def bumpAlloc (size : Nat) (m : BumpState) : Ptr × BumpState :=
  if m.used + size ≤ m.capacity then
    (some m.used, { m with used := m.used + size })
  else
    (none, m)

/-- A concrete host pool: a bump allocator that records zeroed requests. -/
def bumpPool : HostPool BumpState where
  ngx_palloc := fun _ size m => bumpAlloc size m
  ngx_pcalloc := fun _ size m =>
    bumpAlloc size { m with zeroed_requests := m.zeroed_requests ++ [size] }
  ngx_pfree := fun _ _ m => (NGX_DECLINED, m)

/-! ## Request-inspection hook -/

/-- The part of `ngx_http_request_t` a phase handler could look at. -/
structure ngx_http_request_t where
  method : String
  uri : String
  headers : List (String × String)
  deriving DecidableEq, Repr

/-- Hook `ngx_http_naxsi_rewrite_phase_handler`. -/
def ngx_http_naxsi_rewrite_phase_handler (_request : ngx_http_request_t) : Int :=
  NGX_ERROR

/-! ## Phase hook registrar -/

/-- A phase handler function pointer: the module's hook, or a handler of some
other module. -/
inductive ngx_http_handler_pt where
  | ngx_http_naxsi_rewrite_phase_handler
  | other (id : Nat)
  deriving DecidableEq, Repr

/-- The host array `ngx_array_t`: `nelts` is the length of `elts`. -/
structure ngx_array_t (α : Type) where
  elts : List α
  deriving DecidableEq, Repr

/-- Host `ngx_array_push`: when the host cannot grow the array it returns null
and leaves the array as it is; otherwise it returns the slot after the last
element, whose content `junk` is not initialised. -/
def ngx_array_push {α : Type} (grow_ok : Bool) (junk : α) (a : ngx_array_t α) :
    Option Nat × ngx_array_t α :=
  if grow_ok then (some a.elts.length, { elts := a.elts ++ [junk] }) else (none, a)

/-- The host pipeline phases `ngx_http_phases`, in pipeline order. -/
inductive ngx_http_phases where
  | NGX_HTTP_POST_READ_PHASE
  | NGX_HTTP_SERVER_REWRITE_PHASE
  | NGX_HTTP_FIND_CONFIG_PHASE
  | NGX_HTTP_REWRITE_PHASE
  | NGX_HTTP_POST_REWRITE_PHASE
  | NGX_HTTP_PREACCESS_PHASE
  | NGX_HTTP_ACCESS_PHASE
  | NGX_HTTP_POST_ACCESS_PHASE
  | NGX_HTTP_PRECONTENT_PHASE
  | NGX_HTTP_CONTENT_PHASE
  | NGX_HTTP_LOG_PHASE
  deriving DecidableEq, Repr

/-- Host `ngx_http_phase_t`. -/
structure ngx_http_phase_t where
  handlers : ngx_array_t ngx_http_handler_pt
  deriving DecidableEq, Repr

/-- Host `ngx_http_core_main_conf_t`: one handler list per phase. -/
structure ngx_http_core_main_conf_t where
  phases : ngx_http_phases → ngx_http_phase_t

/-- What `ngx_http_naxsi_post_configuration` sees of the host: the result of
`ngx_http_conf_get_module_main_conf(cf, ngx_http_core_module)` (`none` is
null), whether the host can grow an array, and the content of a fresh slot. -/
structure PostConfHost where
  main_conf : Option ngx_http_core_main_conf_t
  grow_ok : Bool
  junk : ngx_http_handler_pt

/-- Callback `ngx_http_naxsi_post_configuration`: the status and the main HTTP
configuration afterwards. -/
def ngx_http_naxsi_post_configuration (h : PostConfHost) :
    Int × Option ngx_http_core_main_conf_t :=
  match h.main_conf with
  | none => (NGX_ERROR, none)
  | some conf =>
    let pushed := ngx_array_push h.grow_ok h.junk
      (conf.phases .NGX_HTTP_REWRITE_PHASE).handlers
    let conf1 : ngx_http_core_main_conf_t :=
      { phases := fun p =>
          if p = .NGX_HTTP_REWRITE_PHASE then { handlers := pushed.2 } else conf.phases p }
    match pushed.1 with
    | none => (NGX_ERROR, some conf1)
    | some slot =>
      let conf2 : ngx_http_core_main_conf_t :=
        { phases := fun p =>
            if p = .NGX_HTTP_REWRITE_PHASE then
              { handlers :=
                  { elts := (conf1.phases p).handlers.elts.set slot
                      .ngx_http_naxsi_rewrite_phase_handler } }
            else conf1.phases p }
      (NGX_OK, some conf2)

/-- A host configuration with two rewrite handlers and one access handler. -/
def sampleMainConf : ngx_http_core_main_conf_t where
  phases := fun p =>
    match p with
    | .NGX_HTTP_REWRITE_PHASE => { handlers := { elts := [.other 1, .other 2] } }
    | .NGX_HTTP_ACCESS_PHASE => { handlers := { elts := [.other 3] } }
    | _ => { handlers := { elts := [] } }

/-! ## Strings, the allocator bridge and the engine boundary -/

/-- Host string `ngx_str_t`: `data` is the C string the pointer refers to
(without its terminating zero byte), `len` the stored length. -/
structure ngx_str_t where
  len : Nat
  data : String
  deriving DecidableEq, Repr, Inhabited

/-- Host initialiser `ngx_string("...")`: the length is `sizeof(str) - 1`. -/
def ngx_string (s : String) : ngx_str_t :=
  { len := s.utf8ByteSize, data := s }

/-- Engine string view `naxsi_str_t`, in the field order of the initialiser
written by `ngx_naxsi_arg`. -/
structure naxsi_str_t where
  data : String
  len : Nat
  deriving DecidableEq, Repr

/-- The conversion `ngx_naxsi_arg(s)`, that is `{ (char *)s.data, s.len }`. -/
def ngx_naxsi_arg (s : ngx_str_t) : naxsi_str_t :=
  { data := s.data, len := s.len }

/-- The three adapter functions, as function references. -/
inductive AdapterFn where
  | nginx_naxsi_free
  | nginx_naxsi_malloc
  | nginx_naxsi_calloc
  deriving DecidableEq, Repr

/-- Modelled from the spec: the allocator bridge `naxsi_mem_t` built by
`naxsi_memory` (engine header, not among the sources) is "a value-type bundle of
three function references (free, allocate, zero-allocate) plus the opaque pool
handle they close over". -/
structure naxsi_mem_t where
  pool : ngx_pool_t
  free : AdapterFn
  malloc : AdapterFn
  calloc : AdapterFn
  deriving DecidableEq, Repr

/-- The bridge `ngx_naxsi_memory(ppool)`, that is
`naxsi_memory(ppool, &nginx_naxsi_free, &nginx_naxsi_malloc, &nginx_naxsi_calloc)`. -/
def ngx_naxsi_memory (ppool : ngx_pool_t) : naxsi_mem_t :=
  { pool := ppool, free := .nginx_naxsi_free, malloc := .nginx_naxsi_malloc,
    calloc := .nginx_naxsi_calloc }

/-- The engine entry points of the boundary.  `naxsi_new`, `naxsi_ignore_ip` and
`naxsi_ignore_cidr` are named by the source; `add_rule`, `set_denied_url` and
`set_flag` are the remaining entry points listed by the specification, which the
source never names. -/
inductive EntryPoint where
  | naxsi_new
  | naxsi_ignore_ip
  | naxsi_ignore_cidr
  | add_rule
  | set_denied_url
  | set_flag
  deriving DecidableEq, Repr

/-- The behaviour of the external engine over its instance state `σ`
(`naxsi_t`), for the entry points the source calls.  An entry point returns its
verdict and the instance afterwards. -/
structure Engine (σ : Type) where
  naxsi_new : naxsi_mem_t → Option σ
  naxsi_ignore_ip : naxsi_mem_t → σ → naxsi_str_t → Bool × σ
  naxsi_ignore_cidr : naxsi_mem_t → σ → naxsi_str_t → Bool × σ

/-- Modelled from the spec: the engine entry points the source never calls,
"add-rule(instance, text)→bool, set-denied-url(instance, text)→bool,
set-flag(instance, flag)→bool"; the engine is not among the sources. -/
structure RuleEntryPoints (σ : Type) where
  add_rule : naxsi_mem_t → σ → naxsi_str_t → Bool × σ
  set_denied_url : naxsi_mem_t → σ → naxsi_str_t → Bool × σ
  set_flag : naxsi_mem_t → σ → naxsi_str_t → Bool × σ

/-- What a handler does to its collaborators, in order: a call of an engine
entry point, or a call of the host logger `ngx_conf_log_error` with its level,
error number, format string and the C strings given for the format. -/
inductive Event where
  | engine_call (ep : EntryPoint) (mem : naxsi_mem_t) (arg : naxsi_str_t)
  | conf_log_error (level : Nat) (err : Int) (fmt : String) (args : List String)
  deriving DecidableEq, Repr

/-- The engine calls of a trace, in order. -/
def engineCalls : List Event → List (EntryPoint × naxsi_mem_t × naxsi_str_t)
  | [] => []
  | .engine_call ep mem arg :: rest => (ep, mem, arg) :: engineCalls rest
  | .conf_log_error _ _ _ _ :: rest => engineCalls rest

/-- Modelled from the spec: the keyword macros `NAXSI_KEYWORD_*` come from the
engine header, which is not among the sources; the directive surface of the
specification lists the keywords, in the order of the directive table. -/
def NAXSI_KEYWORD_MAIN_RULE : String := "MainRule"

/-- Modelled from the spec: keyword of the `BasicRule` directive. -/
def NAXSI_KEYWORD_BASIC_RULE : String := "BasicRule"

/-- Modelled from the spec: keyword of the `DeniedUrl` directive. -/
def NAXSI_KEYWORD_DENIED_URL : String := "DeniedUrl"

/-- Modelled from the spec: keyword of the `IgnoreIP` directive. -/
def NAXSI_KEYWORD_IGNORE_IP : String := "IgnoreIP"

/-- Modelled from the spec: keyword of the `IgnoreCIDR` directive. -/
def NAXSI_KEYWORD_IGNORE_CIDR : String := "IgnoreCIDR"

/-- Modelled from the spec: keyword of the `CheckRule` directive. -/
def NAXSI_KEYWORD_CHECK_RULE : String := "CheckRule"

/-- Modelled from the spec: keyword of the `LearningMode` directive. -/
def NAXSI_KEYWORD_LEARNING_FLAG : String := "LearningMode"

/-- Modelled from the spec: keyword of the `SecRulesEnabled` directive. -/
def NAXSI_KEYWORD_ENABLED_FLAG : String := "SecRulesEnabled"

/-- Modelled from the spec: keyword of the `SecRulesDisabled` directive. -/
def NAXSI_KEYWORD_DISABLED_FLAG : String := "SecRulesDisabled"

/-- Modelled from the spec: keyword of the `LibInjectionSql` directive. -/
def NAXSI_KEYWORD_LIBINJECTION_SQL : String := "LibInjectionSql"

/-- Modelled from the spec: keyword of the `LibInjectionXss` directive. -/
def NAXSI_KEYWORD_LIBINJECTION_XSS : String := "LibInjectionXss"

/-! ## Directive handlers -/

/-- The directive handlers of the module, as function references
(`cmd_set_cb`). -/
inductive cmd_set_cb where
  | ngx_http_naxsi_main_rule
  | ngx_http_naxsi_basic_rule
  | ngx_http_naxsi_denied_url
  | ngx_http_naxsi_ignore_ip_request
  | ngx_http_naxsi_ignore_cidr_request
  | ngx_http_naxsi_check_rule
  | ngx_http_naxsi_flags
  deriving DecidableEq, Repr, Inhabited

/-- The slot of `ngx_http_conf_ctx_t` a directive's configuration object is
taken from (`NGX_HTTP_MAIN_CONF_OFFSET`, `NGX_HTTP_LOC_CONF_OFFSET`). -/
inductive ConfOffset where
  | NGX_HTTP_MAIN_CONF_OFFSET
  | NGX_HTTP_LOC_CONF_OFFSET
  deriving DecidableEq, Repr, Inhabited

/-- An entry `ngx_command_t` of the directive table. -/
structure ngx_command_t where
  name : ngx_str_t
  type : Nat
  set : cmd_set_cb
  conf : ConfOffset
  offset : Nat
  post : Option Nat
  deriving DecidableEq, Repr, Inhabited

/-- The part of the parse context `ngx_conf_t` the module reads: the tokens of
the directive (`args`, the keyword first), the pool, and the kind of block the
directive stands in (`cmd_type`). -/
structure ngx_conf_t where
  args : ngx_array_t ngx_str_t
  pool : ngx_pool_t
  cmd_type : Nat
  deriving DecidableEq, Repr

/-- The result of a handler: the returned `char *`, the configuration object
afterwards (`none` is a null pointer), and what was called. -/
structure HandlerResult (σ : Type) where
  rv : Int
  naxsi : Option σ
  trace : List Event

/-- Factory `ngx_http_naxsi_create_naxsi`: a new engine instance over the
bridge of the context's pool; `none` is null. -/
def ngx_http_naxsi_create_naxsi {σ : Type} (E : Engine σ) (cf : ngx_conf_t) : Option σ :=
  E.naxsi_new (ngx_naxsi_memory cf.pool)

/-- Handler `ngx_http_naxsi_main_rule`. -/
def ngx_http_naxsi_main_rule {σ : Type} (_cf : Option ngx_conf_t) (_cmd : ngx_command_t)
    (naxsi_loc : Option σ) : HandlerResult σ :=
  { rv := NGX_CONF_ERROR, naxsi := naxsi_loc, trace := [] }

/-- Handler `ngx_http_naxsi_basic_rule`. -/
def ngx_http_naxsi_basic_rule {σ : Type} (_cf : Option ngx_conf_t) (_cmd : ngx_command_t)
    (naxsi_loc : Option σ) : HandlerResult σ :=
  { rv := NGX_CONF_ERROR, naxsi := naxsi_loc, trace := [] }

/-- Handler `ngx_http_naxsi_denied_url`. -/
def ngx_http_naxsi_denied_url {σ : Type} (_cf : Option ngx_conf_t) (_cmd : ngx_command_t)
    (naxsi_loc : Option σ) : HandlerResult σ :=
  { rv := NGX_CONF_ERROR, naxsi := naxsi_loc, trace := [] }

/-- Handler `ngx_http_naxsi_ignore_ip_request`.  The result is `none` when
`value[1]` lies outside the token array, which C leaves undefined. -/
def ngx_http_naxsi_ignore_ip_request {σ : Type} (E : Engine σ) (cf : Option ngx_conf_t)
    (_cmd : ngx_command_t) (naxsi_loc : Option σ) : Option (HandlerResult σ) :=
  match cf, naxsi_loc with
  | some cf, some loc =>
    match cf.args.elts[1]? with
    | none => none
    | some value1 =>
      let mem := ngx_naxsi_memory cf.pool
      let ip_address := ngx_naxsi_arg value1
      let called := E.naxsi_ignore_ip mem loc ip_address
      if !called.1 then
        some { rv := NGX_CONF_ERROR, naxsi := some called.2,
               trace := [.engine_call .naxsi_ignore_ip mem ip_address,
                         .conf_log_error NGX_LOG_EMERG 0
                           ("naxsi: " ++ ("invalid " ++ NAXSI_KEYWORD_IGNORE_IP ++ " value: %s"))
                           [value1.data]] }
      else
        some { rv := NGX_OK, naxsi := some called.2,
               trace := [.engine_call .naxsi_ignore_ip mem ip_address] }
  | _, _ => some { rv := NGX_CONF_ERROR, naxsi := naxsi_loc, trace := [] }

/-- Handler `ngx_http_naxsi_ignore_cidr_request`.  The result is `none` when
`value[1]` lies outside the token array, which C leaves undefined. -/
def ngx_http_naxsi_ignore_cidr_request {σ : Type} (E : Engine σ) (cf : Option ngx_conf_t)
    (_cmd : ngx_command_t) (naxsi_loc : Option σ) : Option (HandlerResult σ) :=
  match cf, naxsi_loc with
  | some cf, some loc =>
    match cf.args.elts[1]? with
    | none => none
    | some value1 =>
      let mem := ngx_naxsi_memory cf.pool
      let cidr := ngx_naxsi_arg value1
      let called := E.naxsi_ignore_cidr mem loc cidr
      if !called.1 then
        some { rv := NGX_CONF_ERROR, naxsi := some called.2,
               trace := [.engine_call .naxsi_ignore_cidr mem cidr,
                         .conf_log_error NGX_LOG_EMERG 0
                           ("naxsi: " ++ ("invalid " ++ NAXSI_KEYWORD_IGNORE_CIDR ++ " value: %s"))
                           [value1.data]] }
      else
        some { rv := NGX_OK, naxsi := some called.2,
               trace := [.engine_call .naxsi_ignore_cidr mem cidr] }
  | _, _ => some { rv := NGX_CONF_ERROR, naxsi := naxsi_loc, trace := [] }

/-- Handler `ngx_http_naxsi_check_rule`. -/
def ngx_http_naxsi_check_rule {σ : Type} (_cf : Option ngx_conf_t) (_cmd : ngx_command_t)
    (naxsi_loc : Option σ) : HandlerResult σ :=
  { rv := NGX_CONF_ERROR, naxsi := naxsi_loc, trace := [] }

/-- Handler `ngx_http_naxsi_flags`. -/
def ngx_http_naxsi_flags {σ : Type} (_cf : Option ngx_conf_t) (_cmd : ngx_command_t)
    (naxsi_loc : Option σ) : HandlerResult σ :=
  { rv := NGX_CONF_ERROR, naxsi := naxsi_loc, trace := [] }

/-- Calling a handler through its function reference, as the host does with
`cmd->set(cf, cmd, conf)`. -/
def cmd_set_cb.call {σ : Type} (E : Engine σ) (cf : Option ngx_conf_t) (cmd : ngx_command_t)
    (conf : Option σ) : cmd_set_cb → Option (HandlerResult σ)
  | .ngx_http_naxsi_main_rule => some (Naxsi.ngx_http_naxsi_main_rule cf cmd conf)
  | .ngx_http_naxsi_basic_rule => some (Naxsi.ngx_http_naxsi_basic_rule cf cmd conf)
  | .ngx_http_naxsi_denied_url => some (Naxsi.ngx_http_naxsi_denied_url cf cmd conf)
  | .ngx_http_naxsi_ignore_ip_request => Naxsi.ngx_http_naxsi_ignore_ip_request E cf cmd conf
  | .ngx_http_naxsi_ignore_cidr_request => Naxsi.ngx_http_naxsi_ignore_cidr_request E cf cmd conf
  | .ngx_http_naxsi_check_rule => some (Naxsi.ngx_http_naxsi_check_rule cf cmd conf)
  | .ngx_http_naxsi_flags => some (Naxsi.ngx_http_naxsi_flags cf cmd conf)

/-! ## Directive table

The numeric values of the flags are those of the host's headers
`ngx_conf_file.h` and `ngx_http_config.h`, which are not part of the module. -/

/-- Host arity flag `NGX_CONF_NOARGS`. -/
def NGX_CONF_NOARGS : Nat := 0x00000001

/-- Host arity flag `NGX_CONF_TAKE1`. -/
def NGX_CONF_TAKE1 : Nat := 0x00000002

/-- Host arity flag `NGX_CONF_TAKE2`. -/
def NGX_CONF_TAKE2 : Nat := 0x00000004

/-- Host arity flag `NGX_CONF_TAKE3`. -/
def NGX_CONF_TAKE3 : Nat := 0x00000008

/-- Host arity flag `NGX_CONF_TAKE4`. -/
def NGX_CONF_TAKE4 : Nat := 0x00000010

/-- Host arity flag `NGX_CONF_TAKE5`. -/
def NGX_CONF_TAKE5 : Nat := 0x00000020

/-- Host arity flag `NGX_CONF_TAKE6`. -/
def NGX_CONF_TAKE6 : Nat := 0x00000040

/-- Host arity flag `NGX_CONF_TAKE7`. -/
def NGX_CONF_TAKE7 : Nat := 0x00000080

/-- Host limit `NGX_CONF_MAX_ARGS`. -/
def NGX_CONF_MAX_ARGS : Nat := 8

/-- Host flag `NGX_CONF_BLOCK`. -/
def NGX_CONF_BLOCK : Nat := 0x00000100

/-- Host arity flag `NGX_CONF_FLAG`. -/
def NGX_CONF_FLAG : Nat := 0x00000200

/-- Host arity flag `NGX_CONF_ANY`. -/
def NGX_CONF_ANY : Nat := 0x00000400

/-- Host arity flag `NGX_CONF_1MORE`. -/
def NGX_CONF_1MORE : Nat := 0x00000800

/-- Host arity flag `NGX_CONF_2MORE`. -/
def NGX_CONF_2MORE : Nat := 0x00001000

/-- Host scope flag `NGX_HTTP_MAIN_CONF`: the `http` block. -/
def NGX_HTTP_MAIN_CONF : Nat := 0x02000000

/-- Host scope flag `NGX_HTTP_SRV_CONF`: a `server` block. -/
def NGX_HTTP_SRV_CONF : Nat := 0x04000000

/-- Host scope flag `NGX_HTTP_LOC_CONF`: a `location` block. -/
def NGX_HTTP_LOC_CONF : Nat := 0x08000000

/-- Host scope flag `NGX_HTTP_UPS_CONF`: an `upstream` block. -/
def NGX_HTTP_UPS_CONF : Nat := 0x10000000

/-- Host scope flag `NGX_HTTP_SIF_CONF`: an `if` block of a server. -/
def NGX_HTTP_SIF_CONF : Nat := 0x20000000

/-- Host scope flag `NGX_HTTP_LIF_CONF`: an `if` block of a location. -/
def NGX_HTTP_LIF_CONF : Nat := 0x40000000

/-- Host scope flag `NGX_HTTP_LMT_CONF`: a `limit_except` block. -/
def NGX_HTTP_LMT_CONF : Nat := 0x80000000

/-- The kinds of block of an HTTP configuration, as values of `cf->cmd_type`. -/
def httpScopes : List Nat :=
  [NGX_HTTP_MAIN_CONF, NGX_HTTP_SRV_CONF, NGX_HTTP_LOC_CONF, NGX_HTTP_UPS_CONF,
   NGX_HTTP_SIF_CONF, NGX_HTTP_LIF_CONF, NGX_HTTP_LMT_CONF]

/-- The directive table `ngx_http_naxsi_commands`; the terminating
`ngx_null_command` is the end of the list. -/
def ngx_http_naxsi_commands : List ngx_command_t :=
  [ { name := ngx_string NAXSI_KEYWORD_MAIN_RULE,
      type := NGX_HTTP_MAIN_CONF ||| NGX_CONF_1MORE,
      set := .ngx_http_naxsi_main_rule,
      conf := .NGX_HTTP_MAIN_CONF_OFFSET, offset := 0, post := none },
    { name := ngx_string NAXSI_KEYWORD_BASIC_RULE,
      type := NGX_HTTP_LOC_CONF ||| NGX_HTTP_LMT_CONF ||| NGX_CONF_1MORE,
      set := .ngx_http_naxsi_basic_rule,
      conf := .NGX_HTTP_LOC_CONF_OFFSET, offset := 0, post := none },
    { name := ngx_string NAXSI_KEYWORD_DENIED_URL,
      type := NGX_HTTP_LOC_CONF ||| NGX_HTTP_LMT_CONF ||| NGX_CONF_1MORE,
      set := .ngx_http_naxsi_denied_url,
      conf := .NGX_HTTP_LOC_CONF_OFFSET, offset := 0, post := none },
    { name := ngx_string NAXSI_KEYWORD_IGNORE_IP,
      type := NGX_HTTP_LOC_CONF ||| NGX_HTTP_LMT_CONF ||| NGX_CONF_1MORE,
      set := .ngx_http_naxsi_ignore_ip_request,
      conf := .NGX_HTTP_LOC_CONF_OFFSET, offset := 0, post := none },
    { name := ngx_string NAXSI_KEYWORD_IGNORE_CIDR,
      type := NGX_HTTP_LOC_CONF ||| NGX_HTTP_LMT_CONF ||| NGX_CONF_1MORE,
      set := .ngx_http_naxsi_ignore_cidr_request,
      conf := .NGX_HTTP_LOC_CONF_OFFSET, offset := 0, post := none },
    { name := ngx_string NAXSI_KEYWORD_CHECK_RULE,
      type := NGX_HTTP_LOC_CONF ||| NGX_HTTP_LMT_CONF ||| NGX_CONF_1MORE,
      set := .ngx_http_naxsi_check_rule,
      conf := .NGX_HTTP_LOC_CONF_OFFSET, offset := 0, post := none },
    { name := ngx_string NAXSI_KEYWORD_LEARNING_FLAG,
      type := NGX_HTTP_LOC_CONF ||| NGX_HTTP_LMT_CONF ||| NGX_CONF_NOARGS,
      set := .ngx_http_naxsi_flags,
      conf := .NGX_HTTP_LOC_CONF_OFFSET, offset := 0, post := none },
    { name := ngx_string NAXSI_KEYWORD_ENABLED_FLAG,
      type := NGX_HTTP_LOC_CONF ||| NGX_HTTP_LMT_CONF ||| NGX_CONF_NOARGS,
      set := .ngx_http_naxsi_flags,
      conf := .NGX_HTTP_LOC_CONF_OFFSET, offset := 0, post := none },
    { name := ngx_string NAXSI_KEYWORD_DISABLED_FLAG,
      type := NGX_HTTP_LOC_CONF ||| NGX_HTTP_LMT_CONF ||| NGX_CONF_NOARGS,
      set := .ngx_http_naxsi_flags,
      conf := .NGX_HTTP_LOC_CONF_OFFSET, offset := 0, post := none },
    { name := ngx_string NAXSI_KEYWORD_LIBINJECTION_SQL,
      type := NGX_HTTP_LOC_CONF ||| NGX_HTTP_LMT_CONF ||| NGX_CONF_NOARGS,
      set := .ngx_http_naxsi_flags,
      conf := .NGX_HTTP_LOC_CONF_OFFSET, offset := 0, post := none },
    { name := ngx_string NAXSI_KEYWORD_LIBINJECTION_XSS,
      type := NGX_HTTP_LOC_CONF ||| NGX_HTTP_LMT_CONF ||| NGX_CONF_NOARGS,
      set := .ngx_http_naxsi_flags,
      conf := .NGX_HTTP_LOC_CONF_OFFSET, offset := 0, post := none } ]

/-- The entry of a table for a keyword, if there is one. -/
def findCommand (cmds : List ngx_command_t) (keyword : String) : Option ngx_command_t :=
  cmds.find? (fun cmd => cmd.name.data == keyword)

/-! ## Host directive dispatch -/

/-- The host's scope check on a table entry, `cmd->type & cf->cmd_type`. -/
def scope_admits (type cmd_type : Nat) : Bool :=
  type &&& cmd_type != 0

/-- The host table `argument_number`. -/
def argument_number : List Nat :=
  [NGX_CONF_NOARGS, NGX_CONF_TAKE1, NGX_CONF_TAKE2, NGX_CONF_TAKE3, NGX_CONF_TAKE4,
   NGX_CONF_TAKE5, NGX_CONF_TAKE6, NGX_CONF_TAKE7]

/-- The host's arity check on a table entry; `nelts` counts the tokens of the
directive, the keyword included. -/
def arity_admits (type nelts : Nat) : Bool :=
  if type &&& NGX_CONF_ANY != 0 then true
  else if type &&& NGX_CONF_FLAG != 0 then nelts == 2
  else if type &&& NGX_CONF_1MORE != 0 then !(decide (nelts < 2))
  else if type &&& NGX_CONF_2MORE != 0 then !(decide (nelts < 3))
  else if nelts > NGX_CONF_MAX_ARGS then false
  else
    match argument_number[nelts - 1]? with
    | some flag => type &&& flag != 0
    | none => false

/-- The configuration objects of this module in the current context
(`ngx_http_conf_ctx_t`); `none` is a null pointer. -/
structure ngx_http_conf_ctx_t (σ : Type) where
  main_conf : Option σ
  loc_conf : Option σ

/-- The object a table entry's `conf` field selects in a context. -/
def ngx_http_conf_ctx_t.select {σ : Type} (ctx : ngx_http_conf_ctx_t σ) :
    ConfOffset → Option σ
  | .NGX_HTTP_MAIN_CONF_OFFSET => ctx.main_conf
  | .NGX_HTTP_LOC_CONF_OFFSET => ctx.loc_conf

/-- How the host disposes of one directive. -/
inductive Dispatched (σ : Type) where
  | unknown_directive
  | not_allowed_here
  | invalid_arguments
  | handled (cmd : ngx_command_t) (r : HandlerResult σ)

/-- The search loop of the host's `ngx_conf_handler` over one module's table,
for a directive that ends with `;`: the first entry of the right name (length,
then bytes) and scope is checked for arity and its handler is called; `found`
records that some entry had the right name. -/
def ngx_conf_handler_loop {σ : Type} (E : Engine σ) (cf : ngx_conf_t)
    (ctx : ngx_http_conf_ctx_t σ) (name : ngx_str_t) :
    List ngx_command_t → Bool → Option (Dispatched σ)
  | [], found => some (if found then .not_allowed_here else .unknown_directive)
  | cmd :: rest, found =>
    if name.len ≠ cmd.name.len then ngx_conf_handler_loop E cf ctx name rest found
    else if name.data ≠ cmd.name.data then ngx_conf_handler_loop E cf ctx name rest found
    else if !(scope_admits cmd.type cf.cmd_type) then
      ngx_conf_handler_loop E cf ctx name rest true
    else if !(arity_admits cmd.type cf.args.elts.length) then some .invalid_arguments
    else
      match cmd.set.call E (some cf) cmd (ctx.select cmd.conf) with
      | none => none
      | some r => some (.handled cmd r)

/-- Host `ngx_conf_handler` over one module's table; the keyword is the first
token, and a directive without tokens is outside what the host produces. -/
def ngx_conf_handler {σ : Type} (E : Engine σ) (cmds : List ngx_command_t) (cf : ngx_conf_t)
    (ctx : ngx_http_conf_ctx_t σ) : Option (Dispatched σ) :=
  match cf.args.elts.head? with
  | none => none
  | some name => ngx_conf_handler_loop E cf ctx name cmds false

/-- One directive of a configuration: its parse context and the location scope
it stands in. -/
structure Line where
  cf : ngx_conf_t
  scope : Nat
  deriving DecidableEq, Repr

/-- The configuration objects of a load: the global one and one per location
scope. -/
structure ConfState (σ : Type) where
  main_conf : Option σ
  loc_conf : Nat → Option σ

/-- The context of a location scope. -/
def ConfState.ctx {σ : Type} (st : ConfState σ) (scope : Nat) : ngx_http_conf_ctx_t σ :=
  { main_conf := st.main_conf, loc_conf := st.loc_conf scope }

/-- The state after a handler has worked on the object its entry selects. -/
def ConfState.store {σ : Type} (st : ConfState σ) (scope : Nat) (v : Option σ) :
    ConfOffset → ConfState σ
  | .NGX_HTTP_MAIN_CONF_OFFSET => { st with main_conf := v }
  | .NGX_HTTP_LOC_CONF_OFFSET =>
    { st with loc_conf := fun i => if i = scope then v else st.loc_conf i }

/-- The host's directive loop: directives are dispatched in order and the first
one that is not handled with `NGX_CONF_OK` fails the load. -/
def ngx_conf_parse {σ : Type} (E : Engine σ) (cmds : List ngx_command_t) :
    List Line → ConfState σ → List Event → Option (Int × ConfState σ × List Event)
  | [], st, tr => some (NGX_CONF_OK, st, tr)
  | l :: rest, st, tr =>
    match ngx_conf_handler E cmds l.cf (st.ctx l.scope) with
    | none => none
    | some (.handled cmd r) =>
      if r.rv = NGX_CONF_OK then
        ngx_conf_parse E cmds rest (st.store l.scope r.naxsi cmd.conf) (tr ++ r.trace)
      else some (NGX_CONF_ERROR, st.store l.scope r.naxsi cmd.conf, tr ++ r.trace)
    | some _ => some (NGX_CONF_ERROR, st, tr)

/-! ## A concrete engine -/

/-- The instance state of a small concrete engine: its two ignore sets. -/
structure SampleState where
  ignore_ips : List String
  ignore_cidrs : List String
  deriving DecidableEq, Repr

/-- A literal of digits and dots, not empty. -/
def sampleValidIp (s : String) : Bool :=
  !s.data.isEmpty && s.data.all (fun c => c.isDigit || c == '.')

/-- A literal of digits, dots and one slash, not empty. -/
def sampleValidCidr (s : String) : Bool :=
  s.data.count '/' == 1 && s.data.all (fun c => c.isDigit || c == '.' || c == '/')

/-- The handlers of a phase in a main HTTP configuration that may be null. -/
def handlersOf (conf : Option ngx_http_core_main_conf_t) (p : ngx_http_phases) :
    List ngx_http_handler_pt :=
  match conf with
  | none => []
  | some c => (c.phases p).handlers.elts

/-- A small concrete engine. -/
def sampleEngine : Engine SampleState where
  naxsi_new := fun _ => some { ignore_ips := [], ignore_cidrs := [] }
  naxsi_ignore_ip := fun _ st a =>
    if sampleValidIp a.data then (true, { st with ignore_ips := st.ignore_ips ++ [a.data] })
    else (false, st)
  naxsi_ignore_cidr := fun _ st a =>
    if sampleValidCidr a.data then (true, { st with ignore_cidrs := st.ignore_cidrs ++ [a.data] })
    else (false, st)

/-- Rule entry points that accept every value and leave the instance alone. -/
def acceptAll : RuleEntryPoints SampleState where
  add_rule := fun _ st _ => (true, st)
  set_denied_url := fun _ st _ => (true, st)
  set_flag := fun _ st _ => (true, st)

/-- The parse context of a directive with the given tokens in a block of the
given kind. -/
def directive (tokens : List String) (cmd_type : Nat) : ngx_conf_t :=
  { args := { elts := tokens.map ngx_string }, pool := 1, cmd_type := cmd_type }

/-- A fresh instance of the concrete engine. -/
def sampleFresh : SampleState := { ignore_ips := [], ignore_cidrs := [] }

/-- A message contains a text when the text's characters occur in it, in order
and without gaps. -/
def containsText (msg part : String) : Prop :=
  part.data <:+: msg.data

instance (msg part : String) : Decidable (containsText msg part) :=
  inferInstanceAs (Decidable (part.data <:+: msg.data))

/-- The handlers whose body is the bare `return NGX_CONF_ERROR;`. -/
def isPlaceholder : cmd_set_cb → Bool
  | .ngx_http_naxsi_main_rule => true
  | .ngx_http_naxsi_basic_rule => true
  | .ngx_http_naxsi_denied_url => true
  | .ngx_http_naxsi_check_rule => true
  | .ngx_http_naxsi_flags => true
  | .ngx_http_naxsi_ignore_ip_request => false
  | .ngx_http_naxsi_ignore_cidr_request => false

/-- A directive uses one of the given keywords when its first token is one of
them. -/
def usesKeywordOf (keywords : List String) (l : Line) : Bool :=
  match l.cf.args.elts.head? with
  | some name => keywords.contains name.data
  | none => false

/-- The keywords of the nine directives the table gives to those handlers. -/
def placeholderKeywords : List String :=
  [NAXSI_KEYWORD_MAIN_RULE, NAXSI_KEYWORD_BASIC_RULE, NAXSI_KEYWORD_DENIED_URL,
   NAXSI_KEYWORD_CHECK_RULE, NAXSI_KEYWORD_LEARNING_FLAG, NAXSI_KEYWORD_ENABLED_FLAG,
   NAXSI_KEYWORD_DISABLED_FLAG, NAXSI_KEYWORD_LIBINJECTION_SQL,
   NAXSI_KEYWORD_LIBINJECTION_XSS]

/-! ## Allocator adapter: properties -/

/-- The zero-allocate adapter hands the pool the product reduced modulo the word
size, whatever the operands. -/
theorem nginx_naxsi_calloc_request {μ : Type} (w : Nat) (H : HostPool μ) (pool : ngx_pool_t)
    (nmemb size : Nat) (m : μ) :
    nginx_naxsi_calloc w H pool nmemb size m = H.ngx_pcalloc pool ((nmemb * size) % 2 ^ w) m :=
  rfl

/-- When the product fits the word, the zero-allocate adapter requests exactly
`nmemb * size` zeroed bytes and returns the pool's result. -/
theorem nginx_naxsi_calloc_fits {μ : Type} (w : Nat) (H : HostPool μ) (pool : ngx_pool_t)
    (nmemb size : Nat) (m : μ) (hfit : nmemb * size < 2 ^ w) :
    nginx_naxsi_calloc w H pool nmemb size m = H.ngx_pcalloc pool (nmemb * size) m := by
  unfold nginx_naxsi_calloc
  simp only [Nat.mod_eq_of_lt hfit]

/-- C4, evaluated on 64-bit words at `nmemb = 2 ^ 62 + 1`, `size = 4`: the
product `2 ^ 64 + 4` does not fit the word, and `nginx_naxsi_calloc` asks the
pool for the wrapped size 4 and returns the pool's non-null block of 4 bytes
instead of the null result. -/
theorem nginx_naxsi_calloc_wraps_on_overflow :
    ¬ ((2 ^ 62 + 1) * 4 < 2 ^ 64) ∧
    ((2 ^ 62 + 1) * 4) % 2 ^ 64 = 4 ∧
    nginx_naxsi_calloc 64 bumpPool 1 (2 ^ 62 + 1) 4
        { used := 0, capacity := 4096, zeroed_requests := [] }
      = (some 0, { used := 4, capacity := 4096, zeroed_requests := [4] }) := by
  decide

/-! ## Request-inspection hook: properties -/

/-- C7: for every request the hook returns the host's error status
`NGX_ERROR` (the fail outcome); it never returns `NGX_DECLINED`, which lets the
pipeline pass on, nor `NGX_OK`; its result lies in the two-outcome set and is
the same for any two requests. -/
theorem rewrite_phase_handler_always_fails (request other : ngx_http_request_t) :
    ngx_http_naxsi_rewrite_phase_handler request = NGX_ERROR ∧
    ngx_http_naxsi_rewrite_phase_handler request ≠ NGX_DECLINED ∧
    ngx_http_naxsi_rewrite_phase_handler request ≠ NGX_OK ∧
    (ngx_http_naxsi_rewrite_phase_handler request = NGX_DECLINED ∨
      ngx_http_naxsi_rewrite_phase_handler request = NGX_ERROR) ∧
    ngx_http_naxsi_rewrite_phase_handler request =
      ngx_http_naxsi_rewrite_phase_handler other := by
  refine ⟨rfl, ?_, ?_, Or.inr rfl, rfl⟩
  · show NGX_ERROR ≠ NGX_DECLINED
    decide
  · show NGX_ERROR ≠ NGX_OK
    decide

/-! ## Phase hook registrar: properties -/

/-- C9: the post-configuration callback returns `NGX_ERROR` exactly when the
main HTTP configuration lookup is null or the append fails, and then every
handler list is as before; otherwise it returns `NGX_OK`, the rewrite-phase
list is the previous list followed by the hook, and the list of every other
phase is as before. -/
theorem post_configuration_registers_hook (h : PostConfHost) :
    ((ngx_http_naxsi_post_configuration h).1 = NGX_ERROR ↔
      (h.main_conf = none ∨ h.grow_ok = false)) ∧
    ((ngx_http_naxsi_post_configuration h).1 = NGX_ERROR →
      ∀ p, handlersOf (ngx_http_naxsi_post_configuration h).2 p = handlersOf h.main_conf p) ∧
    ((ngx_http_naxsi_post_configuration h).1 ≠ NGX_ERROR →
      (ngx_http_naxsi_post_configuration h).1 = NGX_OK ∧
      handlersOf (ngx_http_naxsi_post_configuration h).2 .NGX_HTTP_REWRITE_PHASE =
        handlersOf h.main_conf .NGX_HTTP_REWRITE_PHASE ++
          [.ngx_http_naxsi_rewrite_phase_handler] ∧
      ∀ p, p ≠ .NGX_HTTP_REWRITE_PHASE →
        handlersOf (ngx_http_naxsi_post_configuration h).2 p = handlersOf h.main_conf p) := by
  obtain ⟨mc, ok, junk⟩ := h
  cases mc with
  | none =>
    simp [ngx_http_naxsi_post_configuration, handlersOf]
  | some conf =>
    cases ok with
    | false =>
      refine ⟨?_, ?_, ?_⟩
      · simp [ngx_http_naxsi_post_configuration, ngx_array_push]
      · intro _ p
        by_cases hp : p = .NGX_HTTP_REWRITE_PHASE <;>
          simp [ngx_http_naxsi_post_configuration, ngx_array_push, handlersOf, hp]
      · intro hne
        exact absurd rfl hne
    | true =>
      refine ⟨?_, ?_, ?_⟩
      · simp [ngx_http_naxsi_post_configuration, ngx_array_push, NGX_OK, NGX_ERROR]
      · intro herr
        simp [ngx_http_naxsi_post_configuration, ngx_array_push, NGX_OK, NGX_ERROR] at herr
      · intro _
        refine ⟨?_, ?_, ?_⟩
        · simp [ngx_http_naxsi_post_configuration, ngx_array_push]
        · simp [ngx_http_naxsi_post_configuration, ngx_array_push, handlersOf]
        · intro p hp
          simp [ngx_http_naxsi_post_configuration, ngx_array_push, handlersOf, hp]

/-- Witness of C9: on a host with two rewrite handlers and one access handler
whose array can grow, the callback returns `NGX_OK`, the rewrite list gains the
hook at its end and the access list is as before. -/
theorem post_configuration_registers_hook_witness :
    (ngx_http_naxsi_post_configuration
        { main_conf := some sampleMainConf, grow_ok := true, junk := .other 99 }).1 = NGX_OK ∧
    handlersOf (ngx_http_naxsi_post_configuration
        { main_conf := some sampleMainConf, grow_ok := true, junk := .other 99 }).2
        .NGX_HTTP_REWRITE_PHASE =
      [.other 1, .other 2, .ngx_http_naxsi_rewrite_phase_handler] ∧
    handlersOf (ngx_http_naxsi_post_configuration
        { main_conf := some sampleMainConf, grow_ok := true, junk := .other 99 }).2
        .NGX_HTTP_ACCESS_PHASE = [.other 3] := by
  obtain ⟨hiff, _, hok⟩ := post_configuration_registers_hook
    { main_conf := some sampleMainConf, grow_ok := true, junk := .other 99 }
  have hne : (ngx_http_naxsi_post_configuration
      { main_conf := some sampleMainConf, grow_ok := true, junk := .other 99 }).1 ≠
      NGX_ERROR := by
    intro h
    rcases hiff.mp h with h1 | h1 <;> cases h1
  obtain ⟨h1, h2, h3⟩ := hok hne
  exact ⟨h1, h2, h3 _ (by decide)⟩

/-! ## Ignore-IP and Ignore-CIDR handlers: properties -/

/-- A text contained in a message is contained in the message extended. -/
theorem containsText_append_left (msg a part : String) (h : containsText msg part) :
    containsText (msg ++ a) part := by
  obtain ⟨u, v, huv⟩ := h
  show part.data <:+: (msg ++ a).data
  exact ⟨u, v ++ a.data, by simp [← huv]⟩

/-- C1: with a non-null configuration object and first argument `L`, the
Ignore-IP handler returns a result, its only engine call is the add-ignore-IP
entry point on the view with the data and length of `L`, it returns
`NGX_CONF_OK` when that call accepts and `NGX_CONF_ERROR` when it rejects, and
the configuration object afterwards is the instance that call produced. -/
theorem ignore_ip_request_contract {σ : Type} (E : Engine σ) (cf : ngx_conf_t)
    (cmd : ngx_command_t) (loc : σ) (L : ngx_str_t) (hL : cf.args.elts[1]? = some L) :
    ∃ r, ngx_http_naxsi_ignore_ip_request E (some cf) cmd (some loc) = some r ∧
      engineCalls r.trace =
        [(.naxsi_ignore_ip, ngx_naxsi_memory cf.pool, { data := L.data, len := L.len })] ∧
      ((E.naxsi_ignore_ip (ngx_naxsi_memory cf.pool) loc
          { data := L.data, len := L.len }).1 = true → r.rv = NGX_CONF_OK) ∧
      ((E.naxsi_ignore_ip (ngx_naxsi_memory cf.pool) loc
          { data := L.data, len := L.len }).1 = false → r.rv = NGX_CONF_ERROR) ∧
      r.naxsi = some (E.naxsi_ignore_ip (ngx_naxsi_memory cf.pool) loc
          { data := L.data, len := L.len }).2 := by
  cases hv : (E.naxsi_ignore_ip (ngx_naxsi_memory cf.pool) loc
      { data := L.data, len := L.len }).1 <;>
    simp [ngx_http_naxsi_ignore_ip_request, hL, ngx_naxsi_arg, hv, engineCalls, NGX_OK,
      NGX_CONF_OK]

/-- Witness of C1 on the concrete engine: `IgnoreIP 10.0.0.1`. -/
theorem ignore_ip_request_contract_witness :
    ∃ r, ngx_http_naxsi_ignore_ip_request sampleEngine
        (some (directive ["IgnoreIP", "10.0.0.1"] NGX_HTTP_LOC_CONF))
        (ngx_http_naxsi_commands.getD 3 default) (some sampleFresh) = some r ∧
      engineCalls r.trace =
        [(.naxsi_ignore_ip, ngx_naxsi_memory 1, { data := "10.0.0.1", len := 8 })] ∧
      r.rv = NGX_CONF_OK ∧
      r.naxsi = some { ignore_ips := ["10.0.0.1"], ignore_cidrs := [] } := by
  obtain ⟨r, hr, hcalls, hok, _, hst⟩ :=
    ignore_ip_request_contract sampleEngine
      (directive ["IgnoreIP", "10.0.0.1"] NGX_HTTP_LOC_CONF)
      (ngx_http_naxsi_commands.getD 3 default) sampleFresh (ngx_string "10.0.0.1") (by decide)
  exact ⟨r, hr, hcalls, hok (by decide), hst⟩

/-- C2: with a non-null configuration object and first argument `C`, the
Ignore-CIDR handler returns a result, its only engine call is the
add-ignore-CIDR entry point on the view with the data and length of `C`, it
returns `NGX_CONF_OK` exactly when that call accepts and `NGX_CONF_ERROR`
otherwise, and it makes no call of the add-ignore-IP entry point. -/
theorem ignore_cidr_request_contract {σ : Type} (E : Engine σ) (cf : ngx_conf_t)
    (cmd : ngx_command_t) (loc : σ) (C : ngx_str_t) (hC : cf.args.elts[1]? = some C) :
    ∃ r, ngx_http_naxsi_ignore_cidr_request E (some cf) cmd (some loc) = some r ∧
      engineCalls r.trace =
        [(.naxsi_ignore_cidr, ngx_naxsi_memory cf.pool, { data := C.data, len := C.len })] ∧
      (r.rv = NGX_CONF_OK ↔
        (E.naxsi_ignore_cidr (ngx_naxsi_memory cf.pool) loc
          { data := C.data, len := C.len }).1 = true) ∧
      ((E.naxsi_ignore_cidr (ngx_naxsi_memory cf.pool) loc
          { data := C.data, len := C.len }).1 = false → r.rv = NGX_CONF_ERROR) ∧
      (∀ c ∈ engineCalls r.trace, c.1 ≠ EntryPoint.naxsi_ignore_ip) := by
  cases hv : (E.naxsi_ignore_cidr (ngx_naxsi_memory cf.pool) loc
      { data := C.data, len := C.len }).1 <;>
    simp [ngx_http_naxsi_ignore_cidr_request, hC, ngx_naxsi_arg, hv, engineCalls, NGX_OK,
      NGX_CONF_OK, NGX_CONF_ERROR] <;>
    intro a _ _ ha _ _ <;> simp [ha]

/-- Witness of C2 on the concrete engine: `IgnoreCIDR 10.0.0.0/abc` is
rejected. -/
theorem ignore_cidr_request_contract_witness :
    ∃ r, ngx_http_naxsi_ignore_cidr_request sampleEngine
        (some (directive ["IgnoreCIDR", "10.0.0.0/abc"] NGX_HTTP_LOC_CONF))
        (ngx_http_naxsi_commands.getD 4 default) (some sampleFresh) = some r ∧
      engineCalls r.trace =
        [(.naxsi_ignore_cidr, ngx_naxsi_memory 1, { data := "10.0.0.0/abc", len := 12 })] ∧
      r.rv = NGX_CONF_ERROR := by
  obtain ⟨r, hr, hcalls, _, herr, _⟩ :=
    ignore_cidr_request_contract sampleEngine
      (directive ["IgnoreCIDR", "10.0.0.0/abc"] NGX_HTTP_LOC_CONF)
      (ngx_http_naxsi_commands.getD 4 default) sampleFresh (ngx_string "10.0.0.0/abc")
      (by decide)
  exact ⟨r, hr, hcalls, herr (by decide)⟩

/-- When no entry of the right name admits the kind of block, the search loop
ends with "not allowed here" if some entry had the right name, and with "unknown
directive" otherwise; no handler is called. -/
theorem ngx_conf_handler_loop_scope_refused {σ : Type} (E : Engine σ) (cf : ngx_conf_t)
    (ctx : ngx_http_conf_ctx_t σ) (name : ngx_str_t) :
    ∀ (cmds : List ngx_command_t) (found : Bool),
      (∀ cmd ∈ cmds, name.len = cmd.name.len → name.data = cmd.name.data →
        scope_admits cmd.type cf.cmd_type = false) →
      ngx_conf_handler_loop E cf ctx name cmds found =
        some (if (found || cmds.any (fun cmd =>
            name.len == cmd.name.len && name.data == cmd.name.data)) = true
          then .not_allowed_here else .unknown_directive) := by
  intro cmds
  induction cmds with
  | nil =>
    intro found _
    simp [ngx_conf_handler_loop]
  | cons cmd rest ih =>
    intro found hall
    have hrest : ∀ c ∈ rest, name.len = c.name.len → name.data = c.name.data →
        scope_admits c.type cf.cmd_type = false :=
      fun c hc => hall c (List.mem_cons_of_mem _ hc)
    rw [List.any_cons]
    unfold ngx_conf_handler_loop
    by_cases hlen : name.len = cmd.name.len
    · by_cases hdata : name.data = cmd.name.data
      · have hsc := hall cmd (List.mem_cons_self _ _) hlen hdata
        have hp : (name.len == cmd.name.len && name.data == cmd.name.data) = true := by
          simp [hlen, hdata]
        rw [hp, if_neg (not_not.mpr hlen), if_neg (not_not.mpr hdata)]
        simp only [hsc, Bool.not_false, if_true]
        rw [ih true hrest]
        simp
      · have hp : (name.len == cmd.name.len && name.data == cmd.name.data) = false := by
          simp [hdata]
        rw [hp, if_neg (not_not.mpr hlen), if_pos hdata, ih found hrest]
        simp
    · have hp : (name.len == cmd.name.len && name.data == cmd.name.data) = false := by
        simp [hlen]
      rw [hp, if_pos hlen, ih found hrest]
      simp

/-- The Ignore-IP handler returns a result whenever `value[1]` exists. -/
theorem ignore_ip_request_returns {σ : Type} (E : Engine σ) (cf : ngx_conf_t)
    (cmd : ngx_command_t) (conf : Option σ) (v : ngx_str_t) (hv : cf.args.elts[1]? = some v) :
    ∃ r, ngx_http_naxsi_ignore_ip_request E (some cf) cmd conf = some r := by
  cases conf with
  | none => exact ⟨_, rfl⟩
  | some loc =>
    simp only [ngx_http_naxsi_ignore_ip_request, hv]
    split <;> exact ⟨_, rfl⟩

/-- The Ignore-CIDR handler returns a result whenever `value[1]` exists. -/
theorem ignore_cidr_request_returns {σ : Type} (E : Engine σ) (cf : ngx_conf_t)
    (cmd : ngx_command_t) (conf : Option σ) (v : ngx_str_t) (hv : cf.args.elts[1]? = some v) :
    ∃ r, ngx_http_naxsi_ignore_cidr_request E (some cf) cmd conf = some r := by
  cases conf with
  | none => exact ⟨_, rfl⟩
  | some loc =>
    simp only [ngx_http_naxsi_ignore_cidr_request, hv]
    split <;> exact ⟨_, rfl⟩

/-- A placeholder handler, called through its reference, returns the error
sentinel, makes no call and leaves the configuration object as it was. -/
theorem placeholder_call {σ : Type} (E : Engine σ) (cf : Option ngx_conf_t)
    (cmd : ngx_command_t) (conf : Option σ) (h : cmd_set_cb) (hp : isPlaceholder h = true) :
    ∃ r, h.call E cf cmd conf = some r ∧ r.rv = NGX_CONF_ERROR ∧ r.trace = [] ∧
      r.naxsi = conf := by
  cases h <;> first
    | exact ⟨_, rfl, rfl, rfl, rfl⟩
    | exact absurd hp (by decide)

/-- When every entry with the directive's name has a placeholder handler, a
handled directive ends with the error sentinel. -/
theorem ngx_conf_handler_loop_placeholder {σ : Type} (E : Engine σ) (cf : ngx_conf_t)
    (ctx : ngx_http_conf_ctx_t σ) (name : ngx_str_t) :
    ∀ (cmds : List ngx_command_t) (found : Bool) (cmd : ngx_command_t) (r : HandlerResult σ),
      (∀ c ∈ cmds, name.data = c.name.data → isPlaceholder c.set = true) →
      ngx_conf_handler_loop E cf ctx name cmds found = some (.handled cmd r) →
      r.rv = NGX_CONF_ERROR := by
  intro cmds
  induction cmds with
  | nil =>
    intro found cmd r _ h
    simp only [ngx_conf_handler_loop] at h
    split at h <;> cases h
  | cons c rest ih =>
    intro found cmd r hall h
    have hrest : ∀ c' ∈ rest, name.data = c'.name.data → isPlaceholder c'.set = true :=
      fun c' hc' => hall c' (List.mem_cons_of_mem _ hc')
    unfold ngx_conf_handler_loop at h
    split at h
    · exact ih found cmd r hrest h
    · split at h
      · exact ih found cmd r hrest h
      · rename_i hdata
        have hdata' : name.data = c.name.data := by
          by_contra hne
          exact hdata hne
        split at h
        · exact ih true cmd r hrest h
        · split at h
          · cases h
          · obtain ⟨r', hr', herr, _, _⟩ :=
              placeholder_call E (some cf) c (ctx.select c.conf) c.set
                (hall c (List.mem_cons_self _ _) hdata')
            rw [hr'] at h
            simp only [Option.some.injEq, Dispatched.handled.injEq] at h
            rw [← h.2]
            exact herr

/-- When every entry whose handler reads `value[1]` is admitted only with at
least two tokens, the search loop always yields a result. -/
theorem ngx_conf_handler_loop_total {σ : Type} (E : Engine σ) (cf : ngx_conf_t)
    (ctx : ngx_http_conf_ctx_t σ) (name : ngx_str_t) :
    ∀ (cmds : List ngx_command_t) (found : Bool),
      (∀ c ∈ cmds, isPlaceholder c.set = false →
        arity_admits c.type cf.args.elts.length = true → 2 ≤ cf.args.elts.length) →
      ∃ d, ngx_conf_handler_loop E cf ctx name cmds found = some d := by
  intro cmds
  induction cmds with
  | nil =>
    intro found _
    exact ⟨_, rfl⟩
  | cons c rest ih =>
    intro found hall
    have hrest : ∀ c' ∈ rest, isPlaceholder c'.set = false →
        arity_admits c'.type cf.args.elts.length = true → 2 ≤ cf.args.elts.length :=
      fun c' hc' => hall c' (List.mem_cons_of_mem _ hc')
    unfold ngx_conf_handler_loop
    split
    · exact ih found hrest
    · split
      · exact ih found hrest
      · split
        · exact ih true hrest
        · split
          · exact ⟨_, rfl⟩
          · rename_i harity
            have harity' : arity_admits c.type cf.args.elts.length = true := by
              simpa using harity
            cases hp : isPlaceholder c.set
            · have hlen := hall c (List.mem_cons_self _ _) hp harity'
              obtain ⟨v, hv⟩ : ∃ v, cf.args.elts[1]? = some v := by
                cases hget : cf.args.elts[1]? with
                | some v => exact ⟨v, rfl⟩
                | none =>
                  rw [List.getElem?_eq_none_iff] at hget
                  omega
              cases hset : c.set <;> rw [hset] at hp <;>
                first
                | exact absurd hp (by decide)
                | (obtain ⟨r, hr⟩ := ignore_ip_request_returns E cf c (ctx.select c.conf) v hv
                   simp only [cmd_set_cb.call, hr]
                   exact ⟨_, rfl⟩)
                | (obtain ⟨r, hr⟩ := ignore_cidr_request_returns E cf c (ctx.select c.conf) v hv
                   simp only [cmd_set_cb.call, hr]
                   exact ⟨_, rfl⟩)
            · obtain ⟨r, hr, _⟩ :=
                placeholder_call E (some cf) c (ctx.select c.conf) c.set hp
              rw [hr]
              exact ⟨_, rfl⟩

/-! ## Directive table: properties -/

/-- C5: the `MainRule` entry admits the `http` block and no other kind of HTTP
block, so the host answers a `MainRule` directive in a `location` block with
"not allowed here" whatever its arguments; each of the other ten entries admits
the `location` block and does not admit the `http` block. -/
theorem main_rule_scope_global_only {σ : Type} (E : Engine σ) (params : List ngx_str_t)
    (pool : ngx_pool_t) (ctx : ngx_http_conf_ctx_t σ) :
    (∀ cmd ∈ ngx_http_naxsi_commands, cmd.name.data = NAXSI_KEYWORD_MAIN_RULE →
      ∀ s ∈ httpScopes, (scope_admits cmd.type s = true ↔ s = NGX_HTTP_MAIN_CONF)) ∧
    ngx_conf_handler E ngx_http_naxsi_commands
        { args := { elts := ngx_string NAXSI_KEYWORD_MAIN_RULE :: params }, pool := pool,
          cmd_type := NGX_HTTP_LOC_CONF } ctx = some .not_allowed_here ∧
    (∀ cmd ∈ ngx_http_naxsi_commands, cmd.name.data ≠ NAXSI_KEYWORD_MAIN_RULE →
      scope_admits cmd.type NGX_HTTP_LOC_CONF = true ∧
      scope_admits cmd.type NGX_HTTP_MAIN_CONF = false) ∧
    ngx_http_naxsi_commands.map (fun cmd => cmd.name.data) =
      ["MainRule", "BasicRule", "DeniedUrl", "IgnoreIP", "IgnoreCIDR", "CheckRule",
       "LearningMode", "SecRulesEnabled", "SecRulesDisabled", "LibInjectionSql",
       "LibInjectionXss"] := by
  refine ⟨by decide, ?_, by decide, by decide⟩
  have hscope : ∀ cmd ∈ ngx_http_naxsi_commands,
      (ngx_string NAXSI_KEYWORD_MAIN_RULE).len = cmd.name.len →
      (ngx_string NAXSI_KEYWORD_MAIN_RULE).data = cmd.name.data →
      scope_admits cmd.type NGX_HTTP_LOC_CONF = false := by decide
  have h := ngx_conf_handler_loop_scope_refused E
    { args := { elts := ngx_string NAXSI_KEYWORD_MAIN_RULE :: params }, pool := pool,
      cmd_type := NGX_HTTP_LOC_CONF } ctx (ngx_string NAXSI_KEYWORD_MAIN_RULE)
    ngx_http_naxsi_commands false hscope
  simp only [ngx_conf_handler, List.head?_cons]
  rw [h]
  have hmatch : (false || ngx_http_naxsi_commands.any (fun cmd =>
      (ngx_string NAXSI_KEYWORD_MAIN_RULE).len == cmd.name.len &&
        (ngx_string NAXSI_KEYWORD_MAIN_RULE).data == cmd.name.data)) = true := by decide
  rw [hmatch]
  rfl

/-- The arity mask of the `IgnoreIP` and `IgnoreCIDR` entries admits every
directive with at least one argument (`nelts` counts the keyword too). -/
theorem ignore_entries_admit_one_or_more (n : Nat) :
    ∀ cmd ∈ ngx_http_naxsi_commands,
      (cmd.name.data = NAXSI_KEYWORD_IGNORE_IP ∨ cmd.name.data = NAXSI_KEYWORD_IGNORE_CIDR) →
      (arity_admits cmd.type (n + 1) = true ↔ 1 ≤ n) := by
  intro cmd hcmd hname
  have htype : cmd.type = NGX_HTTP_LOC_CONF ||| NGX_HTTP_LMT_CONF ||| NGX_CONF_1MORE := by
    revert cmd
    decide
  rw [htype]
  have h1 : (NGX_HTTP_LOC_CONF ||| NGX_HTTP_LMT_CONF ||| NGX_CONF_1MORE) &&& NGX_CONF_ANY = 0 := by
    decide
  have h2 : (NGX_HTTP_LOC_CONF ||| NGX_HTTP_LMT_CONF ||| NGX_CONF_1MORE) &&& NGX_CONF_FLAG = 0 := by
    decide
  have h3 : (NGX_HTTP_LOC_CONF ||| NGX_HTTP_LMT_CONF ||| NGX_CONF_1MORE) &&& NGX_CONF_1MORE =
      NGX_CONF_1MORE := by
    decide
  have h4 : NGX_CONF_1MORE ≠ 0 := by decide
  simp only [arity_admits, h1, h2, h3]
  simp [h4]

/-- C6, evaluated at `IgnoreIP 10.0.0.1 10.0.0.2` and
`IgnoreCIDR 10.0.0.0/8 192.168.0.0/16` in a `location` block: the arity mask of
each entry admits the two arguments, the handler is reached, only the first
argument goes to the engine and the load succeeds. -/
theorem ignore_directives_accept_two_arguments :
    (findCommand ngx_http_naxsi_commands NAXSI_KEYWORD_IGNORE_IP).map
        (fun cmd => arity_admits cmd.type 3) = some true ∧
    (findCommand ngx_http_naxsi_commands NAXSI_KEYWORD_IGNORE_CIDR).map
        (fun cmd => arity_admits cmd.type 3) = some true ∧
    (ngx_conf_parse sampleEngine ngx_http_naxsi_commands
        [{ cf := directive ["IgnoreIP", "10.0.0.1", "10.0.0.2"] NGX_HTTP_LOC_CONF, scope := 0 }]
        { main_conf := some sampleFresh, loc_conf := fun _ => some sampleFresh } []).map
      (fun r => (r.1, r.2.1.loc_conf 0, engineCalls r.2.2)) =
      some (NGX_CONF_OK, some { ignore_ips := ["10.0.0.1"], ignore_cidrs := [] },
        [(.naxsi_ignore_ip, ngx_naxsi_memory 1, { data := "10.0.0.1", len := 8 })]) ∧
    (ngx_conf_parse sampleEngine ngx_http_naxsi_commands
        [{ cf := directive ["IgnoreCIDR", "10.0.0.0/8", "192.168.0.0/16"] NGX_HTTP_LOC_CONF,
           scope := 0 }]
        { main_conf := some sampleFresh, loc_conf := fun _ => some sampleFresh } []).map
      (fun r => (r.1, r.2.1.loc_conf 0, engineCalls r.2.2)) =
      some (NGX_CONF_OK, some { ignore_ips := [], ignore_cidrs := ["10.0.0.0/8"] },
        [(.naxsi_ignore_cidr, ngx_naxsi_memory 1, { data := "10.0.0.0/8", len := 10 })]) := by
  refine ⟨by decide, by decide, by decide, by decide⟩

/-! ## Placeholder handlers: properties -/

/-- The arity mask shared by the entries with `NGX_CONF_1MORE` admits exactly
the directives of at least two tokens. -/
theorem arity_admits_1more (n : Nat) :
    arity_admits (NGX_HTTP_LOC_CONF ||| NGX_HTTP_LMT_CONF ||| NGX_CONF_1MORE) n = true ↔
      2 ≤ n := by
  have h1 : (NGX_HTTP_LOC_CONF ||| NGX_HTTP_LMT_CONF ||| NGX_CONF_1MORE) &&& NGX_CONF_ANY = 0 := by
    decide
  have h2 : (NGX_HTTP_LOC_CONF ||| NGX_HTTP_LMT_CONF ||| NGX_CONF_1MORE) &&& NGX_CONF_FLAG = 0 := by
    decide
  have h3 : (NGX_HTTP_LOC_CONF ||| NGX_HTTP_LMT_CONF ||| NGX_CONF_1MORE) &&& NGX_CONF_1MORE =
      NGX_CONF_1MORE := by
    decide
  have h4 : NGX_CONF_1MORE ≠ 0 := by decide
  simp only [arity_admits, h1, h2, h3]
  simp [h4]

/-- With the module's table the host's dispatch of a directive that has a
keyword always yields a result. -/
theorem ngx_conf_handler_total {σ : Type} (E : Engine σ) (cf : ngx_conf_t)
    (ctx : ngx_http_conf_ctx_t σ) (hne : cf.args.elts ≠ []) :
    ∃ d, ngx_conf_handler E ngx_http_naxsi_commands cf ctx = some d := by
  obtain ⟨name, hname⟩ : ∃ name, cf.args.elts.head? = some name := by
    cases hl : cf.args.elts with
    | nil => exact absurd hl hne
    | cons a rest => exact ⟨a, rfl⟩
  have htable : ∀ c ∈ ngx_http_naxsi_commands, isPlaceholder c.set = false →
      arity_admits c.type cf.args.elts.length = true → 2 ≤ cf.args.elts.length := by
    intro c hc hp harity
    have htypes : ∀ c1 ∈ ngx_http_naxsi_commands, isPlaceholder c1.set = false →
        c1.type = NGX_HTTP_LOC_CONF ||| NGX_HTTP_LMT_CONF ||| NGX_CONF_1MORE := by decide
    rw [htypes c hc hp] at harity
    exact (arity_admits_1more _).mp harity
  obtain ⟨d, hd⟩ :=
    ngx_conf_handler_loop_total E cf ctx name ngx_http_naxsi_commands false htable
  exact ⟨d, by simp only [ngx_conf_handler, hname, hd]⟩

/-- With the module's table a directive with one of the nine placeholder
keywords is never handled with `NGX_CONF_OK`. -/
theorem ngx_conf_handler_placeholder {σ : Type} (E : Engine σ) (l : Line)
    (ctx : ngx_http_conf_ctx_t σ) (cmd : ngx_command_t) (r : HandlerResult σ)
    (huses : usesKeywordOf placeholderKeywords l = true)
    (hd : ngx_conf_handler E ngx_http_naxsi_commands l.cf ctx = some (.handled cmd r)) :
    r.rv = NGX_CONF_ERROR := by
  unfold usesKeywordOf at huses
  unfold ngx_conf_handler at hd
  cases hname : l.cf.args.elts.head? with
  | none => rw [hname] at hd; cases hd
  | some name =>
    rw [hname] at huses hd
    have hk : name.data ∈ placeholderKeywords := by simpa using huses
    have htable : ∀ k ∈ placeholderKeywords, ∀ c ∈ ngx_http_naxsi_commands,
        k = c.name.data → isPlaceholder c.set = true := by decide
    exact ngx_conf_handler_loop_placeholder E l.cf ctx name ngx_http_naxsi_commands false cmd r
      (fun c hc hdata => htable name.data hk c hc hdata) hd

/-- A configuration whose directives all have a keyword and one of which uses a
placeholder keyword fails to load. -/
theorem ngx_conf_parse_placeholder {σ : Type} (E : Engine σ) :
    ∀ (lines : List Line) (st : ConfState σ) (tr : List Event),
      (∀ l ∈ lines, l.cf.args.elts ≠ []) →
      (∃ l ∈ lines, usesKeywordOf placeholderKeywords l = true) →
      ∃ st1 tr1, ngx_conf_parse E ngx_http_naxsi_commands lines st tr =
        some (NGX_CONF_ERROR, st1, tr1) := by
  intro lines
  induction lines with
  | nil =>
    intro st tr _ huses
    obtain ⟨l, hl, _⟩ := huses
    cases hl
  | cons l rest ih =>
    intro st tr hwf huses
    obtain ⟨d, hd⟩ := ngx_conf_handler_total E l.cf (st.ctx l.scope)
      (hwf l (List.mem_cons_self _ _))
    unfold ngx_conf_parse
    rw [hd]
    cases d with
    | unknown_directive => exact ⟨_, _, rfl⟩
    | not_allowed_here => exact ⟨_, _, rfl⟩
    | invalid_arguments => exact ⟨_, _, rfl⟩
    | handled cmd r =>
      by_cases hok : r.rv = NGX_CONF_OK
      · simp only [hok, if_true]
        apply ih
        · exact fun l1 hl1 => hwf l1 (List.mem_cons_of_mem _ hl1)
        · obtain ⟨l1, hl1, hu⟩ := huses
          rcases List.mem_cons.mp hl1 with heq | hmem
          · subst heq
            have herr := ngx_conf_handler_placeholder E l1 (st.ctx l1.scope) cmd r hu hd
            rw [herr] at hok
            exact absurd hok (by decide)
          · exact ⟨l1, hmem, hu⟩
      · simp only [hok, if_false]
        exact ⟨_, _, rfl⟩

/-- C8, evaluated at `MainRule id:1` in the `http` block with a non-null
configuration object and rule entry points that accept every value: the table
admits the one argument, yet the handler makes no engine call (not one) and
returns `NGX_CONF_ERROR`, not success. -/
theorem main_rule_fails_though_engine_accepts :
    (acceptAll.add_rule (ngx_naxsi_memory 1) sampleFresh
        (ngx_naxsi_arg (ngx_string "id:1"))).1 = true ∧
    arity_admits (ngx_http_naxsi_commands.getD 0 default).type
        (directive ["MainRule", "id:1"] NGX_HTTP_MAIN_CONF).args.elts.length = true ∧
    (ngx_http_naxsi_commands.getD 0 default).set = .ngx_http_naxsi_main_rule ∧
    ¬ (engineCalls (ngx_http_naxsi_main_rule
        (some (directive ["MainRule", "id:1"] NGX_HTTP_MAIN_CONF))
        (ngx_http_naxsi_commands.getD 0 default) (some sampleFresh)).trace).length = 1 ∧
    (ngx_http_naxsi_main_rule
        (some (directive ["MainRule", "id:1"] NGX_HTTP_MAIN_CONF))
        (ngx_http_naxsi_commands.getD 0 default) (some sampleFresh)).rv ≠ NGX_CONF_OK := by
  refine ⟨by decide, by decide, by decide, by decide, by decide⟩

/-- C8 as amended: for every entry of the table with a placeholder handler
(MainRule, BasicRule, DeniedUrl, CheckRule and the five flag directives), a
non-null configuration object and an admitted number of arguments, the handler
returns a result, makes no engine call, leaves the configuration object as it
was and returns `NGX_CONF_ERROR`, never `NGX_CONF_OK`. -/
theorem placeholder_handlers_never_succeed {σ : Type} (E : Engine σ) (cf : ngx_conf_t)
    (cmd : ngx_command_t) (conf : σ) (_hcmd : cmd ∈ ngx_http_naxsi_commands)
    (hp : isPlaceholder cmd.set = true)
    (_harity : arity_admits cmd.type cf.args.elts.length = true) :
    ∃ r, cmd.set.call E (some cf) cmd (some conf) = some r ∧
      engineCalls r.trace = [] ∧ r.naxsi = some conf ∧
      r.rv = NGX_CONF_ERROR ∧ r.rv ≠ NGX_CONF_OK := by
  obtain ⟨r, hr, herr, htr, hst⟩ := placeholder_call E (some cf) cmd (some conf) cmd.set hp
  refine ⟨r, hr, by rw [htr]; rfl, hst, herr, ?_⟩
  rw [herr]
  decide

/-- Witness of the amended C8: `DeniedUrl /denied` in a `location` block. -/
theorem placeholder_handlers_never_succeed_witness :
    ∃ r, (ngx_http_naxsi_commands.getD 2 default).set.call sampleEngine
        (some (directive ["DeniedUrl", "/denied"] NGX_HTTP_LOC_CONF))
        (ngx_http_naxsi_commands.getD 2 default) (some sampleFresh) = some r ∧
      engineCalls r.trace = [] ∧ r.naxsi = some sampleFresh ∧
      r.rv = NGX_CONF_ERROR ∧ r.rv ≠ NGX_CONF_OK :=
  placeholder_handlers_never_succeed sampleEngine
    (directive ["DeniedUrl", "/denied"] NGX_HTTP_LOC_CONF)
    (ngx_http_naxsi_commands.getD 2 default) sampleFresh (by decide) (by decide) (by decide)

/-- C10: whatever the parse context, the table entry and the configuration
object (null or not), each of the five placeholder handlers returns
`NGX_CONF_ERROR`, calls nothing and leaves the configuration object as it was;
the table gives the nine keywords to these handlers only; and a configuration
that uses one of the nine keywords fails to load. -/
theorem placeholder_directives_fail_load {σ : Type} (E : Engine σ) (cf : Option ngx_conf_t)
    (cmd : ngx_command_t) (conf : Option σ) (lines : List Line) (st : ConfState σ)
    (tr : List Event) :
    ((ngx_http_naxsi_main_rule cf cmd conf).rv = NGX_CONF_ERROR ∧
      (ngx_http_naxsi_main_rule cf cmd conf).trace = [] ∧
      (ngx_http_naxsi_main_rule cf cmd conf).naxsi = conf) ∧
    ((ngx_http_naxsi_basic_rule cf cmd conf).rv = NGX_CONF_ERROR ∧
      (ngx_http_naxsi_basic_rule cf cmd conf).trace = [] ∧
      (ngx_http_naxsi_basic_rule cf cmd conf).naxsi = conf) ∧
    ((ngx_http_naxsi_denied_url cf cmd conf).rv = NGX_CONF_ERROR ∧
      (ngx_http_naxsi_denied_url cf cmd conf).trace = [] ∧
      (ngx_http_naxsi_denied_url cf cmd conf).naxsi = conf) ∧
    ((ngx_http_naxsi_check_rule cf cmd conf).rv = NGX_CONF_ERROR ∧
      (ngx_http_naxsi_check_rule cf cmd conf).trace = [] ∧
      (ngx_http_naxsi_check_rule cf cmd conf).naxsi = conf) ∧
    ((ngx_http_naxsi_flags cf cmd conf).rv = NGX_CONF_ERROR ∧
      (ngx_http_naxsi_flags cf cmd conf).trace = [] ∧
      (ngx_http_naxsi_flags cf cmd conf).naxsi = conf) ∧
    (∀ c ∈ ngx_http_naxsi_commands,
      (c.name.data ∈ placeholderKeywords ↔ isPlaceholder c.set = true)) ∧
    ((∀ l ∈ lines, l.cf.args.elts ≠ []) →
      (∃ l ∈ lines, usesKeywordOf placeholderKeywords l = true) →
      ∃ st1 tr1, ngx_conf_parse E ngx_http_naxsi_commands lines st tr =
        some (NGX_CONF_ERROR, st1, tr1)) := by
  refine ⟨⟨rfl, rfl, rfl⟩, ⟨rfl, rfl, rfl⟩, ⟨rfl, rfl, rfl⟩, ⟨rfl, rfl, rfl⟩, ⟨rfl, rfl, rfl⟩,
    by decide, ?_⟩
  exact ngx_conf_parse_placeholder E lines st tr

/-- Witness of C10: a configuration with `IgnoreIP 10.0.0.1` followed by
`LearningMode` in a `location` block fails to load. -/
theorem placeholder_directives_fail_load_witness :
    ∃ st1 tr1, ngx_conf_parse sampleEngine ngx_http_naxsi_commands
        [{ cf := directive ["IgnoreIP", "10.0.0.1"] NGX_HTTP_LOC_CONF, scope := 0 },
         { cf := directive ["LearningMode"] NGX_HTTP_LOC_CONF, scope := 0 }]
        { main_conf := some sampleFresh, loc_conf := fun _ => some sampleFresh } [] =
      some (NGX_CONF_ERROR, st1, tr1) :=
  (placeholder_directives_fail_load sampleEngine none default none
    [{ cf := directive ["IgnoreIP", "10.0.0.1"] NGX_HTTP_LOC_CONF, scope := 0 },
     { cf := directive ["LearningMode"] NGX_HTTP_LOC_CONF, scope := 0 }]
    { main_conf := some sampleFresh, loc_conf := fun _ => some sampleFresh } []).2.2.2.2.2.2
    (by decide) (by decide)

end Naxsi
